import Mathlib

/-!
Shallow embedding of the MathLabs evaluation pipeline, translated from
`src/model_eval/evaluator.py` and `src/model_eval/eval_new2.py`.

The two script variants share the record shapes; variant-specific behavior
lives in the namespaces `Evaluator` (evaluator.py) and `EvalNew2`
(eval_new2.py).  Network calls, the pseudo-random shuffle, and the JSON
parsing of the validator response are modelled as environment inputs: a
call's outcome (success content / HTTP failure / raised exception, each
with its wall-clock duration), the permutation the shuffle produced, and
the parsed correction array are parameters, and the Lean functions embed
exactly what the Python code does with those values.  Timestamps
(`validated_at`, `evaluated_at`) are omitted: no claim mentions them and
no other field depends on them.
-/

set_option linter.unusedVariables false

/-- One multiple-choice option: `{"id": ..., "text": ...}`. -/
structure Choice where
  id : String
  text : String
deriving DecidableEq

/-- A question record as loaded from the source
(`problem_id`, `statement`, `choices`, `answer.correct_ids`, `difficulty`),
plus the `validation` audit key stamped by `apply_validation`
(absent, i.e. `none`, on freshly loaded questions). -/
structure AuditRecord where
  validated_by : String
  original_answer : String
  final_answer : String
  original_difficulty : String
  final_difficulty : String
  shuffle_applied : Bool
  issues : List String
deriving DecidableEq

structure Question where
  problem_id : String
  statement : String
  choices : List Choice
  correct_ids : List String
  difficulty : String
  validation : Option AuditRecord := none
deriving DecidableEq

/-- One parsed element of the validator's JSON array:
`{final_answer, difficulty, shuffle, issues}`. -/
structure Validation where
  final_answer : String
  difficulty : String
  shuffle : Bool
  issues : List String
deriving DecidableEq

/-- The record returned by the API-calling helpers:
`{"error": ..., "content": ..., "time_ms": ...}`. -/
structure CallResult where
  error : Bool
  content : String
  time_ms : Nat
deriving DecidableEq

/-- One element of a block's `student_evaluations` list.  eval_new2.py's
errored entries carry no `"answer"` key at all; that absent key is
modelled as `none`. -/
structure StudentResult where
  model : String
  answer : Option String
  reasoning : String
  correct : Bool
  time_ms : Nat
deriving DecidableEq

/-- One question evaluation block (`original_mcq_ref` + `validation` +
`student_evaluations` + `question_stats`). -/
structure Block where
  problem_id : String
  validation : Option AuditRecord
  student_evaluations : List StudentResult
  accuracy : ℚ
  avg_time_ms : Int
deriving DecidableEq

/-- The top-level persisted run record (`eval_doc`).  evaluator.py's empty
run adds an `"error"` key, modelled by the optional `errorNote` field. -/
structure EvalDoc where
  test_run_id : String
  mode : String
  sampler : String
  batch_size : Nat
  validation_model : String
  student_models : List String
  shuffle_enabled : Bool
  questions : List Block
  overall_accuracy : ℚ
  avg_question_time_ms : Int
  errorNote : Option String
  schema_version : String
deriving DecidableEq

/-- Both scripts set `SHUFFLE_CHOICES = True`. -/
def SHUFFLE_CHOICES : Bool := true

/-- Python's `round(x, 3)`, modelled on exact rationals.  Python rounds
half to even on the underlying binary float; the two agree at every
value that is not an exact decimal tie, and no tie occurs in this file. -/
def round3 (q : ℚ) : ℚ := (round (1000 * q) : ℤ) / 1000

/-- Python's `int(x)` applied to a float: truncation toward zero. -/
def intTrunc (q : ℚ) : Int := if 0 ≤ q then ⌊q⌋ else -⌊-q⌋

/-- The characters matched by the regex class `\s` (ASCII range). -/
def isSpaceChar (c : Char) : Bool :=
  c = ' ' ∨ c = '\t' ∨ c = '\n' ∨ c = '\r' ∨ c = '\x0b' ∨ c = '\x0c'

/-- The characters matched by the regex class `\w` (ASCII range). -/
def isWordChar (c : Char) : Bool := c.isAlphanum ∨ c = '_'

/-- Attempts the regex `ANSWER:\s*([A-D])` (with `re.I`) at the head of
the character list: the literal `ANSWER:` case-insensitively, then any
run of whitespace, then one letter A-D in either case, returned
uppercased (`m.group(1).upper()`). -/
def matchMarkerAt (cs : List Char) : Option String :=
  match cs with
  | c1 :: c2 :: c3 :: c4 :: c5 :: c6 :: c7 :: rest =>
    if c1.toLower = 'a' ∧ c2.toLower = 'n' ∧ c3.toLower = 's' ∧
       c4.toLower = 'w' ∧ c5.toLower = 'e' ∧ c6.toLower = 'r' ∧ c7 = ':' then
      match rest.dropWhile isSpaceChar with
      | d :: _ =>
        if d.toLower = 'a' ∨ d.toLower = 'b' ∨ d.toLower = 'c' ∨ d.toLower = 'd' then
          some (String.singleton d.toUpper)
        else none
      | [] => none
    else none
  | _ => none

/-- Leftmost match of `ANSWER:\s*([A-D])` (`re.search` scans start
positions left to right). -/
def searchMarker : List Char → Option String
  | [] => none
  | c :: cs =>
    match matchMarkerAt (c :: cs) with
    | some a => some a
    | none => searchMarker cs

/-- `re.search(r"ANSWER:\s*([A-D])", text, re.I)`, yielding the uppercased
captured letter. -/
def findMarkerAnswer (text : String) : Option String := searchMarker text.toList

/-- Whether the regex `\b{l}\b` (for a letter `l`) matches somewhere in
the character list: an occurrence of `l` with a word boundary on each
side.  `prev` is the character before the current position (`none` at the
start of the string). -/
def isolatedFrom (l : Char) : Option Char → List Char → Bool
  | _, [] => false
  | prev, c :: rest =>
    (c == l && (match prev with | none => true | some p => !(isWordChar p)) &&
      (match rest with | [] => true | r :: _ => !(isWordChar r)))
    || isolatedFrom l (some c) rest

/-- The fallback loop `for l in "ABCD": if re.search(rf"\b{l}\b", text[:120]): return l`:
scan the first 120 characters for an isolated occurrence of each letter,
in alphabet order. -/
def fallbackScan (text : String) : Option String :=
  let cs := text.toList.take 120
  if isolatedFrom 'A' none cs then some "A"
  else if isolatedFrom 'B' none cs then some "B"
  else if isolatedFrom 'C' none cs then some "C"
  else if isolatedFrom 'D' none cs then some "D"
  else none

/-- Python's `str.strip()`: remove whitespace from both ends. -/
def pyStrip (cs : List Char) : List Char :=
  ((cs.dropWhile isSpaceChar).reverse.dropWhile isSpaceChar).reverse

/-- Attempts the literal `REASONING:` case-insensitively at the head of
the list; on success returns the remainder if it is nonempty (the regex
`REASONING:\s*(.+)` with `re.S` needs at least one further character). -/
def matchReasoningAt (cs : List Char) : Option (List Char) :=
  match cs with
  | c1 :: c2 :: c3 :: c4 :: c5 :: c6 :: c7 :: c8 :: c9 :: c10 :: rest =>
    if c1.toLower = 'r' ∧ c2.toLower = 'e' ∧ c3.toLower = 'a' ∧
       c4.toLower = 's' ∧ c5.toLower = 'o' ∧ c6.toLower = 'n' ∧
       c7.toLower = 'i' ∧ c8.toLower = 'n' ∧ c9.toLower = 'g' ∧ c10 = ':' then
      match rest with
      | [] => none
      | _ :: _ => some rest
    else none
  | _ => none

/-- Leftmost match of `REASONING:\s*(.+)` (`re.I | re.S`), returning the
remainder after the colon. -/
def searchReasoningTail : List Char → Option (List Char)
  | [] => none
  | c :: cs =>
    match matchReasoningAt (c :: cs) with
    | some r => some r
    | none => searchReasoningTail cs

/-- `(m.group(1).strip() if m else text)[:500]`.  Between the greedy `\s*`
and the final `.strip()`, the stored group is the remainder after the
marker stripped of whitespace at both ends. -/
def extractReasoning (text : String) : String :=
  match searchReasoningTail text.toList with
  | some rest => String.mk ((pyStrip rest).take 500)
  | none => String.mk (text.toList.take 500)

/-- `acc = sum(1 for x in results if x["correct"]) / len(results) if results else 0`. -/
def accuracyFraction (rs : List StudentResult) : ℚ :=
  if rs = [] then 0 else (rs.countP (fun r => r.correct) : ℚ) / (rs.length : ℚ)

/-- `avg_t = sum(x["time_ms"] for x in results) / len(results) if results else 0`. -/
def avgTimeFraction (rs : List StudentResult) : ℚ :=
  if rs = [] then 0
  else ((rs.map (fun r => (r.time_ms : ℚ))).sum) / (rs.length : ℚ)

/-- The batch loop `for i in range(0, len(selected), BATCH_SIZE)` with
`BATCH_SIZE = 2` in both scripts. -/
def toBatches : List α → List (List α)
  | [] => []
  | [a] => [[a]]
  | a :: b :: rest => [a, b] :: toBatches rest

/-- Number of stored top-level records carrying a given run identifier. -/
def countFor (store : List EvalDoc) (runId : String) : Nat :=
  store.countP (fun d => d.test_run_id = runId)

/-- MongoDB `update_one({"test_run_id": id}, {"$set": doc}, upsert=True)`:
replace the first record whose `test_run_id` matches, or append the
document if none matches. -/
def upsertDB : List EvalDoc → EvalDoc → List EvalDoc
  | [], doc => [doc]
  | d :: rest, doc =>
    if d.test_run_id = doc.test_run_id then doc :: rest else d :: upsertDB rest doc

/-- Per-question environment: the permutation produced by
`random.shuffle` (as a reordering function applied to the current choice
list) and the roster's call results, in roster order. -/
structure QEnv where
  shuffle : List Choice → List Choice
  calls : List (String × CallResult)

namespace Evaluator

/-! Definitions translated from `src/model_eval/evaluator.py`. -/

def MASTER_MODEL : String := "anthropic/claude-opus-4"

def STUDENT_MODELS : List String :=
  ["openai/gpt-4o-mini", "anthropic/claude-sonnet-4"]

/-- What the network did for one `requests.post`: a 200 response with a
body, a non-200 status, or a raised exception; each with the wall-clock
milliseconds that elapsed before it settled. -/
inductive CallOutcome where
  | success (content : String) (elapsed_ms : Nat)
  | httpFailure (status : Nat) (body : String) (elapsed_ms : Nat)
  | raised (msg : String) (elapsed_ms : Nat)
deriving DecidableEq

def CallOutcome.elapsed : CallOutcome → Nat
  | .success _ t => t
  | .httpFailure _ _ t => t
  | .raised _ t => t

def CallOutcome.isFailure : CallOutcome → Bool
  | .success _ _ => false
  | _ => true

/-- `call_model` (the part after the request is dispatched): every path
measures `ms = int((time.time() - start) * 1000)` and no exception
escapes the surrounding `try`. -/
def call_model (o : CallOutcome) : CallResult :=
  match o with
  | .success content t => { error := false, content := content, time_ms := t }
  | .httpFailure status body t =>
      { error := true,
        content := "HTTP " ++ toString status ++ ": " ++ String.mk (body.toList.take 200),
        time_ms := t }
  | .raised msg t => { error := true, content := "Exception: " ++ msg, time_ms := t }

/-- `extract_answer`: the `ANSWER:` marker regex first, then the
first-120-characters isolated-letter fallback, else `None`. -/
def extract_answer (text : String) : Option String :=
  match findMarkerAnswer text with
  | some a => some a
  | none => fallbackScan text

/-- The body of the result loop in `evaluate_question` for one student
call: an errored call is recorded with `answer None`, the error text as
reasoning, `correct False` and its measured `time_ms`; otherwise the
answer and reasoning are extracted and correctness is the comparison
with the ground answer. -/
def processCall (model : String) (ground : String) (r : CallResult) : StudentResult :=
  if r.error then
    { model := model, answer := none, reasoning := r.content, correct := false,
      time_ms := r.time_ms }
  else
    let ans := extract_answer r.content
    { model := model, answer := ans, reasoning := extractReasoning r.content,
      correct := ans = some ground, time_ms := r.time_ms }

/-- `evaluate_question`: fan the prompt out to the roster (the paired
list `calls` holds each roster member with the `call_model` result of
its call), score every result against
`ground = mcq["validation"]["final_answer"]`, and aggregate the block
stats (`accuracy` rounded to 3 decimals, `avg_time_ms` truncated to an
int). -/
def evaluate_question (mcq : Question) (calls : List (String × CallResult)) : Block :=
  let ground := (mcq.validation.map AuditRecord.final_answer).getD ""
  let results := calls.map (fun mr => processCall mr.1 ground mr.2)
  { problem_id := mcq.problem_id,
    validation := mcq.validation,
    student_evaluations := results,
    accuracy := round3 (accuracyFraction results),
    avg_time_ms := intTrunc (avgTimeFraction results) }

/-- The answer-key override at the top of `apply_validation`:
`if val["final_answer"] != orig_ans: mcq["answer"]["correct_ids"] = [val["final_answer"]]`
where `orig_ans = mcq["answer"]["correct_ids"][0]`. -/
def keyAfterOverride (mcq : Question) (val : Validation) : List String :=
  if val.final_answer ≠ mcq.correct_ids.headI then [val.final_answer] else mcq.correct_ids

/-- The re-resolution loop after `random.shuffle`: look up, in the
(already shuffled) choice list `s`, the text of the choice whose id is
`val["final_answer"]`, then set the key to the id of the first choice in
`s` bearing that text; if no choice matches, the key is left unchanged. -/
def rematchKey (key : List String) (a : String) (s : List Choice) : List String :=
  match s.find? (fun c => some c.text = (s.find? (fun x => x.id = a)).map Choice.text) with
  | some c => [c.id]
  | none => key

/-- The final `correct_ids` produced by `apply_validation`. -/
def finalKey (mcq : Question) (val : Validation) (s : List Choice) : List String :=
  if SHUFFLE_CHOICES && val.shuffle then
    rematchKey (keyAfterOverride mcq val) val.final_answer s
  else keyAfterOverride mcq val

/-- The final choice list: the shuffled list when the shuffle branch
runs, the original list otherwise. -/
def finalChoices (mcq : Question) (val : Validation) (s : List Choice) : List Choice :=
  if SHUFFLE_CHOICES && val.shuffle then s else mcq.choices

/-- The `mcq["validation"]` audit dict stamped at the end of
`apply_validation` (timestamp omitted). -/
def auditOf (mcq : Question) (val : Validation) : AuditRecord :=
  { validated_by := MASTER_MODEL,
    original_answer := mcq.correct_ids.headI,
    final_answer := val.final_answer,
    original_difficulty := mcq.difficulty,
    final_difficulty := val.difficulty,
    shuffle_applied := SHUFFLE_CHOICES && val.shuffle,
    issues := val.issues }

/-- `apply_validation(mcq, val)` as a value transformation, with the
permutation `s` that `random.shuffle` produced supplied as input (it is
only consulted when the shuffle branch runs).  The difficulty override
writes `val["difficulty"]` only when it differs; the resulting value is
the same either way. -/
def apply_validation (mcq : Question) (val : Validation) (s : List Choice) : Question :=
  { mcq with
    correct_ids := finalKey mcq val s,
    difficulty := if val.difficulty ≠ mcq.difficulty then val.difficulty else mcq.difficulty,
    choices := finalChoices mcq val s,
    validation := some (auditOf mcq val) }

/-- What `run_test`'s call `apply_validation(mcq.copy(), val)` leaves in
the ORIGINAL record `mcq`: `dict.copy()` is shallow, so the nested
`answer` dict and the `choices` list stay shared between `mcq` and the
copy — the key override, the re-resolution write and the in-place
shuffle all reach the original — while the top-level key writes
(`difficulty`, `validation`) land on the copy only. -/
def originalAfterApply (mcq : Question) (val : Validation) (s : List Choice) : Question :=
  { mcq with
    correct_ids := finalKey mcq val s,
    choices := finalChoices mcq val s }

/-- Per-batch environment: whether the master-model validation call
errored, the array parsed from its response (`parse_validation` yields
`[]` when no JSON array is found or decoding fails), and the
per-question randomness/call results. -/
structure BatchEnv where
  valError : Bool
  vals : List Validation
  qenv : Nat → QEnv

/-- One iteration of the batch loop in `run_test`: skip the batch when
the validation call errored or when the parsed array's length differs
from the batch length; otherwise correct and evaluate each question. -/
def processBatch (batch : List Question) (env : BatchEnv) : List Block :=
  if env.valError then []
  else if env.vals.length ≠ batch.length then []
  else
    (batch.zip env.vals).enum.map (fun p =>
      let q := apply_validation p.2.1 p.2.2 ((env.qenv p.1).shuffle p.2.1.choices)
      evaluate_question q ((env.qenv p.1).calls))

/-- All question evaluation blocks accumulated by the batch loop
(`q_results`). -/
def runTestBlocks (selected : List Question) (env : Nat → BatchEnv) : List Block :=
  ((toBatches selected).enum.map (fun p => processBatch p.2 (env p.1))).flatten

/-- `run_test`: run the batch loop, then build the run record — the
explicit empty document (zero summary statistics and an `"error"` note)
when no question passed validation, the aggregated summary otherwise. -/
def run_test (runId : String) (mode sampler : String) (selected : List Question)
    (env : Nat → BatchEnv) : EvalDoc :=
  let q_results := runTestBlocks selected env
  if q_results = [] then
    { test_run_id := runId, mode := mode, sampler := sampler,
      batch_size := selected.length, validation_model := MASTER_MODEL,
      student_models := STUDENT_MODELS, shuffle_enabled := SHUFFLE_CHOICES,
      questions := [],
      overall_accuracy := 0, avg_question_time_ms := 0,
      errorNote := some "All validation batches failed",
      schema_version := "eval-run-1.0" }
  else
    { test_run_id := runId, mode := mode, sampler := sampler,
      batch_size := selected.length, validation_model := MASTER_MODEL,
      student_models := STUDENT_MODELS, shuffle_enabled := SHUFFLE_CHOICES,
      questions := q_results,
      overall_accuracy :=
        round3 (((q_results.map Block.accuracy).sum) / (q_results.length : ℚ)),
      avg_question_time_ms :=
        intTrunc (((q_results.map (fun b => (b.avg_time_ms : ℚ))).sum) / (q_results.length : ℚ)),
      errorNote := none,
      schema_version := "eval-run-1.0" }

/-- `save_evaluation`: db mode upserts on `test_run_id`; test (file) mode
reads the existing JSON array (empty when the file is absent) and
appends the document. -/
def save_evaluation (mode : String) (store : List EvalDoc) (doc : EvalDoc) : List EvalDoc :=
  if mode = "db" then upsertDB store doc else store ++ [doc]

end Evaluator

namespace EvalNew2

/-! Definitions translated from `src/model_eval/eval_new2.py`. -/

def OPENROUTER_MODELS : List String :=
  ["mistralai/mistral-small-3.1-24b-instruct:free",
   "qwen/qwen2.5-vl-32b-instruct:free",
   "google/gemini-2.0-flash-exp:free",
   "nvidia/nemotron-nano-12b-v2-vl:free"]

def HF_MODELS : List String :=
  ["google/gemma-3-27b-it:nebius",
   "Qwen/Qwen2.5-VL-7B-Instruct:hyperbolic",
   "baidu/ERNIE-4.5-VL-28B-A3B-PT:novita",
   "CohereLabs/command-a-vision-07-2025:cohere",
   "zai-org/GLM-4.1V-9B-Thinking:novita"]

def VALIDATOR_NAME : String := "gemini-2.5-flash"

/-- What one `client.chat.completions.create` call did: returned a
response, or raised an exception (transport, auth, rate limit — the
OpenAI client surfaces non-200 statuses as raised errors); each with the
wall-clock milliseconds that elapsed before it settled. -/
inductive CallOutcome where
  | success (content : String) (elapsed_ms : Nat)
  | raised (msg : String) (elapsed_ms : Nat)
deriving DecidableEq

def CallOutcome.elapsed : CallOutcome → Nat
  | .success _ t => t
  | .raised _ t => t

/-- `_call_openai_compatible_api` (after dispatch): the success path
measures and returns the elapsed milliseconds, but the exception path
returns the exception text with `"time_ms": 0`, discarding the measured
duration. -/
def call_api (o : CallOutcome) : CallResult :=
  match o with
  | .success content t => { error := false, content := content, time_ms := t }
  | .raised msg _ => { error := true, content := msg, time_ms := 0 }

/-- `apply_validation`: answer/difficulty overrides as in evaluator.py,
then `random.shuffle` with NO answer-key re-resolution afterwards; the
audit dict records whether the shuffle branch ran. -/
def apply_validation (mcq : Question) (val : Validation) (s : List Choice) : Question :=
  { mcq with
    correct_ids :=
      if val.final_answer ≠ mcq.correct_ids.headI then [val.final_answer] else mcq.correct_ids,
    difficulty := if val.difficulty ≠ mcq.difficulty then val.difficulty else mcq.difficulty,
    choices := if SHUFFLE_CHOICES && val.shuffle then s else mcq.choices,
    validation := some
      { validated_by := VALIDATOR_NAME,
        original_answer := mcq.correct_ids.headI,
        final_answer := val.final_answer,
        original_difficulty := mcq.difficulty,
        final_difficulty := val.difficulty,
        shuffle_applied := SHUFFLE_CHOICES && val.shuffle,
        issues := val.issues } }

/-- `_process_result`: an errored call is appended as
`{"model": ..., "correct": False, "reasoning": r["content"], "time_ms": 0}`
(no `"answer"` key); a successful call is scored with the `ANSWER:`
marker regex only — there is no fallback scan in this script. -/
def processResult (model : String) (ground : String) (r : CallResult) : StudentResult :=
  if r.error then
    { model := model, answer := none, reasoning := r.content, correct := false, time_ms := 0 }
  else
    let ans := findMarkerAnswer r.content
    { model := model, answer := ans, reasoning := extractReasoning r.content,
      correct := ans = some ground, time_ms := r.time_ms }

/-- `evaluate_question`: sequential loops over both rosters (`calls`
holds each roster member with its `_call_openai_compatible_api` result,
in loop order), scored against `ground = mcq["answer"]["correct_ids"][0]`;
the block stores the UNROUNDED accuracy and the truncated average time. -/
def evaluate_question (mcq : Question) (calls : List (String × CallResult)) : Block :=
  let ground := mcq.correct_ids.headI
  let results := calls.map (fun mr => processResult mr.1 ground mr.2)
  { problem_id := mcq.problem_id,
    validation := mcq.validation,
    student_evaluations := results,
    accuracy := accuracyFraction results,
    avg_time_ms := intTrunc (avgTimeFraction results) }

/-- Per-batch environment: the array `gemini_validate_batch` returned
(`[]` on any Gemini error or parse failure) and the per-question
randomness/call results. -/
structure BatchEnv where
  vals : List Validation
  qenv : Nat → QEnv

/-- One iteration of the batch loop in `run_test`: NO error or length
check — `for mcq, val in zip(batch, vals)` silently truncates to the
shorter list, applying corrections to the leading questions only. -/
def processBatch (batch : List Question) (env : BatchEnv) : List Block :=
  (batch.zip env.vals).enum.map (fun p =>
    let q := apply_validation p.2.1 p.2.2 ((env.qenv p.1).shuffle p.2.1.choices)
    evaluate_question q ((env.qenv p.1).calls))

/-- All question evaluation blocks accumulated by the batch loop
(`full_results`). -/
def runTestBlocks (selected : List Question) (env : Nat → BatchEnv) : List Block :=
  ((toBatches selected).enum.map (fun p => processBatch p.2 (env p.1))).flatten

/-- `run_test`: the document is built unconditionally; with zero blocks
the summary conditionals yield `0`. -/
def run_test (runId : String) (mode sampler : String) (selected : List Question)
    (env : Nat → BatchEnv) : EvalDoc :=
  let full_results := runTestBlocks selected env
  let overall_acc : ℚ :=
    if full_results = [] then 0
    else ((full_results.map Block.accuracy).sum) / (full_results.length : ℚ)
  let overall_time : ℚ :=
    if full_results = [] then 0
    else ((full_results.map (fun b => (b.avg_time_ms : ℚ))).sum) / (full_results.length : ℚ)
  { test_run_id := runId, mode := mode, sampler := sampler,
    batch_size := selected.length, validation_model := VALIDATOR_NAME,
    student_models := OPENROUTER_MODELS ++ HF_MODELS, shuffle_enabled := SHUFFLE_CHOICES,
    questions := full_results,
    overall_accuracy := round3 overall_acc,
    avg_question_time_ms := intTrunc overall_time,
    errorNote := none,
    schema_version := "eval-run-1.0" }

/-- `save_evaluation`: db mode upserts on `test_run_id`; any other mode
stores nothing at all. -/
def save_evaluation (mode : String) (store : List EvalDoc) (doc : EvalDoc) : List EvalDoc :=
  if mode = "db" then upsertDB store doc else store

end EvalNew2

/-! Helper lemmas shared by several claims, and concrete sample data used
by witnesses. -/

theorem accuracyFraction_eq (rs : List StudentResult) :
    accuracyFraction rs
      = ((rs.countP (fun r => r.correct) : ℚ)) / ((rs.length : ℚ)) := by
  rcases eq_or_ne rs [] with h | h
  · subst h; simp [accuracyFraction]
  · simp [accuracyFraction, h]

theorem avgTimeFraction_eq (rs : List StudentResult) :
    avgTimeFraction rs
      = (((rs.map (fun r => (r.time_ms : ℚ))).sum)) / ((rs.length : ℚ)) := by
  rcases eq_or_ne rs [] with h | h
  · subst h; simp [avgTimeFraction]
  · simp [avgTimeFraction, h]

theorem count_upsertDB (store : List EvalDoc) (doc : EvalDoc) :
    countFor (upsertDB store doc) doc.test_run_id
      = if countFor store doc.test_run_id = 0 then 1
        else countFor store doc.test_run_id := by
  induction store with
  | nil => simp [upsertDB, countFor]
  | cons d rest ih =>
    by_cases hd : d.test_run_id = doc.test_run_id
    · simp only [upsertDB, hd, if_true, ite_true, countFor, List.countP_cons] at *
      simp only [decide_eq_true_eq]
      split <;> simp_all
    · simp only [upsertDB, hd, if_false, ite_false, countFor, List.countP_cons] at *
      simp [hd, ih]

theorem find_text_unique (s : List Choice) (hnd : (s.map Choice.text).Nodup)
    (c₀ : Choice) (hm : c₀ ∈ s) :
    s.find? (fun c => some c.text = some c₀.text) = some c₀ := by
  induction s with
  | nil => cases hm
  | cons c rest ih =>
    rw [List.map_cons, List.nodup_cons] at hnd
    rcases List.mem_cons.mp hm with h | h
    · subst h
      exact List.find?_cons_of_pos _ (by simp)
    · have hne : ¬ c.text = c₀.text := by
        intro he
        exact hnd.1 (by rw [he]; exact List.mem_map_of_mem Choice.text h)
      rw [List.find?_cons_of_neg _ (by simp [hne])]
      exact ih hnd.2 h

theorem rematchKey_found (key : List String) (a : String) (s : List Choice)
    (hnd : (s.map Choice.text).Nodup) (c₀ : Choice)
    (h : s.find? (fun x => x.id = a) = some c₀) :
    Evaluator.rematchKey key a s = [c₀.id] := by
  unfold Evaluator.rematchKey
  simp only [h, Option.map_some']
  rw [find_text_unique s hnd c₀ (List.mem_of_find?_eq_some h)]

theorem memRunTestBlocksEvaluator {selected : List Question}
    {env : Nat → Evaluator.BatchEnv} {b : Block}
    (hb : b ∈ Evaluator.runTestBlocks selected env) :
    ∃ mcq calls, b = Evaluator.evaluate_question mcq calls := by
  unfold Evaluator.runTestBlocks at hb
  rw [List.mem_flatten] at hb
  obtain ⟨l, hl, hbl⟩ := hb
  rw [List.mem_map] at hl
  obtain ⟨p, hp, rfl⟩ := hl
  unfold Evaluator.processBatch at hbl
  split at hbl
  · simp at hbl
  · split at hbl
    · simp at hbl
    · rw [List.mem_map] at hbl
      obtain ⟨pp, hpp, rfl⟩ := hbl
      exact ⟨_, _, rfl⟩

theorem memRunTestBlocksNew2 {selected : List Question}
    {env : Nat → EvalNew2.BatchEnv} {b : Block}
    (hb : b ∈ EvalNew2.runTestBlocks selected env) :
    ∃ mcq calls, b = EvalNew2.evaluate_question mcq calls := by
  unfold EvalNew2.runTestBlocks at hb
  rw [List.mem_flatten] at hb
  obtain ⟨l, hl, hbl⟩ := hb
  rw [List.mem_map] at hl
  obtain ⟨p, hp, rfl⟩ := hl
  unfold EvalNew2.processBatch at hbl
  rw [List.mem_map] at hbl
  obtain ⟨pp, hpp, rfl⟩ := hbl
  exact ⟨_, _, rfl⟩

theorem evaluatorBlocksNil (selected : List Question) (env : Nat → Evaluator.BatchEnv)
    (h : ∀ i, (env i).valError = true) :
    Evaluator.runTestBlocks selected env = [] := by
  unfold Evaluator.runTestBlocks
  rw [List.flatten_eq_nil_iff]
  intro l hl
  rw [List.mem_map] at hl
  obtain ⟨p, hp, rfl⟩ := hl
  simp [Evaluator.processBatch, h p.1]

theorem new2BlocksNil (selected : List Question) (env : Nat → EvalNew2.BatchEnv)
    (h : ∀ i, (env i).vals = []) :
    EvalNew2.runTestBlocks selected env = [] := by
  unfold EvalNew2.runTestBlocks
  rw [List.flatten_eq_nil_iff]
  intro l hl
  rw [List.mem_map] at hl
  obtain ⟨p, hp, rfl⟩ := hl
  simp [EvalNew2.processBatch, h p.1]

theorem evaluatorBlockAccuracy (mcq : Question) (calls : List (String × CallResult)) :
    (Evaluator.evaluate_question mcq calls).accuracy
      = round3 ((((Evaluator.evaluate_question mcq calls).student_evaluations.countP
            (fun r => r.correct)) : ℚ)
          / (((Evaluator.evaluate_question mcq calls).student_evaluations.length : ℚ))) := by
  simp [Evaluator.evaluate_question, accuracyFraction_eq]

theorem new2BlockAccuracy (mcq : Question) (calls : List (String × CallResult)) :
    (EvalNew2.evaluate_question mcq calls).accuracy
      = (((EvalNew2.evaluate_question mcq calls).student_evaluations.countP
            (fun r => r.correct)) : ℚ)
        / (((EvalNew2.evaluate_question mcq calls).student_evaluations.length : ℚ)) := by
  simp [EvalNew2.evaluate_question, accuracyFraction_eq]

/-- Sample question with two distinct-text choices and key `A`. -/
def qA : Question :=
  ⟨"p1", "s", [⟨"A", "x"⟩, ⟨"B", "y"⟩], ["A"], "easy", none⟩

/-- Second sample question. -/
def qB : Question :=
  ⟨"p2", "s2", [⟨"C", "u"⟩, ⟨"D", "v"⟩], ["C"], "medium", none⟩

/-- A correction confirming key `A`, not requesting a shuffle. -/
def valNoShuffle : Validation := ⟨"A", "easy", false, []⟩

/-- A correction confirming key `A` and requesting a shuffle. -/
def valShuffleA : Validation := ⟨"A", "easy", true, []⟩

/-- Three roster calls: one answers `A`, one answers `B`, one errors. -/
def callsOneOfThree : List (String × CallResult) :=
  [("m1", ⟨false, "ANSWER: A", 100⟩),
   ("m2", ⟨false, "ANSWER: B", 100⟩),
   ("m3", ⟨true, "boom", 5⟩)]

/-- Per-question environment with identity shuffle and no calls. -/
def qenvNone : QEnv := ⟨id, []⟩

/-- Per-question environment with identity shuffle and the three-call roster. -/
def qenvThree : QEnv := ⟨id, callsOneOfThree⟩

/-- A minimal already-built run record for the persistence claims. -/
def sampleDoc : EvalDoc :=
  { test_run_id := "run_20250101_000000", mode := "test", sampler := "random",
    batch_size := 0, validation_model := Evaluator.MASTER_MODEL,
    student_models := Evaluator.STUDENT_MODELS, shuffle_enabled := true,
    questions := [], overall_accuracy := 0, avg_question_time_ms := 0,
    errorNote := none, schema_version := "eval-run-1.0" }

/-- Claim C1 as stated is FALSE for eval_new2.py: with a batch of 2
questions and a parsed correction array of length 1, the truncating
`zip` applies the single correction to the first question and the run
record receives 1 question block from the batch, not 0. -/
theorem claimC1_counterexample :
    (EvalNew2.run_test "run_hybrid_x" "db" "random" [qA, qB]
        (fun _ => ⟨[valNoShuffle], fun _ => qenvNone⟩)).questions.length = 1
    ∧ (1 : Nat) ≠ 0 := by
  exact ⟨rfl, by decide⟩

/-- Claim C1 (amended): in evaluator.py a length mismatch between the
parsed correction array and the batch voids the whole batch (zero blocks
emerge); in eval_new2.py there is no such check — the batch is zipped
with the array and exactly the first `min(batch, array)` questions are
corrected and evaluated. -/
theorem claimC1_amended (batch : List Question) (env : Evaluator.BatchEnv)
    (batch2 : List Question) (env2 : EvalNew2.BatchEnv)
    (h : env.vals.length ≠ batch.length) :
    Evaluator.processBatch batch env = []
    ∧ (EvalNew2.processBatch batch2 env2).length
        = batch2.length ⊓ env2.vals.length := by
  constructor
  · unfold Evaluator.processBatch
    by_cases hv : env.valError = true <;> simp [hv, h]
  · simp [EvalNew2.processBatch]

theorem claimC1_amended_witness :
    ((⟨false, [valNoShuffle], fun _ => qenvNone⟩ : Evaluator.BatchEnv).vals.length
        ≠ ([qA, qB] : List Question).length)
    ∧ (Evaluator.processBatch [qA, qB] ⟨false, [valNoShuffle], fun _ => qenvNone⟩ = []
      ∧ (EvalNew2.processBatch [qA, qB] ⟨[valNoShuffle], fun _ => qenvNone⟩).length
          = ([qA, qB] : List Question).length
            ⊓ (⟨[valNoShuffle], fun _ => qenvNone⟩ : EvalNew2.BatchEnv).vals.length) :=
  ⟨by decide,
    claimC1_amended [qA, qB] ⟨false, [valNoShuffle], fun _ => qenvNone⟩
      [qA, qB] ⟨[valNoShuffle], fun _ => qenvNone⟩ (by decide)⟩

/-- Claim C5 as stated is FALSE in file mode: evaluator.py's test-mode
`save_evaluation` appends to the stored array, so persisting the same
document twice leaves two stored records for its run identifier. -/
theorem claimC5_counterexample :
    countFor (Evaluator.save_evaluation "test"
          (Evaluator.save_evaluation "test" [] sampleDoc) sampleDoc)
        sampleDoc.test_run_id = 2
    ∧ (2 : Nat) ≠ 1 := by decide

/-- Claim C5 (amended): persistence is idempotent in store (db) mode
only — the MongoDB upsert keyed on `test_run_id` leaves exactly one
record after two identical `persist` calls; evaluator.py's file mode
appends a fresh copy each time (two records after two calls), and
eval_new2.py's non-db mode stores nothing at all. -/
theorem claimC5_amended (store : List EvalDoc) (doc : EvalDoc)
    (h : countFor store doc.test_run_id = 0) :
    countFor (Evaluator.save_evaluation "db"
        (Evaluator.save_evaluation "db" store doc) doc) doc.test_run_id = 1
    ∧ countFor (EvalNew2.save_evaluation "db"
        (EvalNew2.save_evaluation "db" store doc) doc) doc.test_run_id = 1
    ∧ countFor (Evaluator.save_evaluation "test"
        (Evaluator.save_evaluation "test" store doc) doc) doc.test_run_id = 2
    ∧ countFor (EvalNew2.save_evaluation "test"
        (EvalNew2.save_evaluation "test" store doc) doc) doc.test_run_id = 0 := by
  have hdb : countFor (upsertDB (upsertDB store doc) doc) doc.test_run_id = 1 := by
    rw [count_upsertDB, count_upsertDB, h]
    simp
  have h' : store.countP (fun d => d.test_run_id = doc.test_run_id) = 0 := h
  refine ⟨?_, ?_, ?_, ?_⟩
  · simpa [Evaluator.save_evaluation] using hdb
  · simpa [EvalNew2.save_evaluation] using hdb
  · simp [Evaluator.save_evaluation, countFor, List.countP_append, List.countP_cons, h']
  · simpa [EvalNew2.save_evaluation, countFor] using h'

theorem claimC5_amended_witness :
    countFor [] sampleDoc.test_run_id = 0
    ∧ (countFor (Evaluator.save_evaluation "db"
          (Evaluator.save_evaluation "db" [] sampleDoc) sampleDoc)
            sampleDoc.test_run_id = 1
      ∧ countFor (EvalNew2.save_evaluation "db"
          (EvalNew2.save_evaluation "db" [] sampleDoc) sampleDoc)
            sampleDoc.test_run_id = 1
      ∧ countFor (Evaluator.save_evaluation "test"
          (Evaluator.save_evaluation "test" [] sampleDoc) sampleDoc)
            sampleDoc.test_run_id = 2
      ∧ countFor (EvalNew2.save_evaluation "test"
          (EvalNew2.save_evaluation "test" [] sampleDoc) sampleDoc)
            sampleDoc.test_run_id = 0) :=
  ⟨by decide, claimC5_amended [] sampleDoc (by decide)⟩

/-- Claim C6 as stated is FALSE for eval_new2.py's caller: on a raised
exception after 500 measured milliseconds it returns the diagnostic
string but `time_ms = 0`, not the measured wall-clock duration. -/
theorem claimC6_counterexample :
    EvalNew2.call_api (EvalNew2.CallOutcome.raised "Connection error" 500)
        = { error := true, content := "Connection error", time_ms := 0 }
    ∧ (EvalNew2.CallOutcome.raised "Connection error" 500).elapsed = 500
    ∧ (0 : Nat) ≠ 500 :=
  ⟨rfl, rfl, by decide⟩

/-- Claim C6 (amended): neither caller lets a failure escape — every
outcome is returned as a record with `error` set exactly on failures and
a diagnostic content string — and evaluator.py's `call_model` returns
the measured wall-clock duration on every path (success, non-200, or
exception); eval_new2.py's caller returns the measured duration only on
success and returns `time_ms = 0` on the exception path. -/
theorem claimC6_amended (o : Evaluator.CallOutcome) :
    (Evaluator.call_model o).time_ms = o.elapsed
    ∧ ((Evaluator.call_model o).error = true ↔ o.isFailure = true)
    ∧ (∀ c t, EvalNew2.call_api (EvalNew2.CallOutcome.success c t)
        = { error := false, content := c, time_ms := t })
    ∧ (∀ m t, EvalNew2.call_api (EvalNew2.CallOutcome.raised m t)
        = { error := true, content := m, time_ms := 0 }) := by
  refine ⟨?_, ?_, fun c t => rfl, fun m t => rfl⟩
  · cases o <;> rfl
  · cases o <;> simp [Evaluator.call_model, Evaluator.CallOutcome.isFailure]

/-- Claim C9 as stated is FALSE: `dict.copy()` in evaluator.py's
`run_test` is shallow, so applying a correction writes the new answer
key through the shared nested `answer` dict — afterwards the original
source record holds `["B"]`, no longer its original `["A"]` (its
top-level `difficulty` does survive). -/
theorem claimC9_counterexample :
    (Evaluator.originalAfterApply qA ⟨"B", "hard", false, []⟩ qA.choices).correct_ids = ["B"]
    ∧ qA.correct_ids = ["A"]
    ∧ (["B"] : List String) ≠ ["A"]
    ∧ (Evaluator.originalAfterApply qA ⟨"B", "hard", false, []⟩ qA.choices).difficulty
        = "easy" := by decide

/-- Claim C9 (amended): applying a correction mutates the record it is
handed.  evaluator.py's `run_test` passes a shallow copy, which protects
exactly the original's top-level fields (identifier, difficulty, audit
stamp) while the nested answer key and the choice ordering are mutated
to the corrected values; eval_new2.py passes the source record itself,
so every overridden field mutates, including difficulty. -/
theorem claimC9_amended (mcq : Question) (val : Validation) (s : List Choice) :
    (Evaluator.originalAfterApply mcq val s).difficulty = mcq.difficulty
    ∧ (Evaluator.originalAfterApply mcq val s).validation = mcq.validation
    ∧ (Evaluator.originalAfterApply mcq val s).problem_id = mcq.problem_id
    ∧ (Evaluator.originalAfterApply mcq val s).correct_ids
        = (Evaluator.apply_validation mcq val s).correct_ids
    ∧ (Evaluator.originalAfterApply mcq val s).choices
        = (Evaluator.apply_validation mcq val s).choices
    ∧ (EvalNew2.apply_validation mcq val s).difficulty = val.difficulty := by
  refine ⟨rfl, rfl, rfl, rfl, rfl, ?_⟩
  by_cases hd : val.difficulty = mcq.difficulty <;>
    simp [EvalNew2.apply_validation, hd]

/-- Claim C3 as stated is FALSE: `random.shuffle` permutes the intact
`{id, text}` pairs, so from choices `[{A,x},{B,y}]` with key `A` the
claimed post-shuffle state `[{A,y},{B,x}]` can never arise, and under
both reachable orders the re-resolution (which matches text within the
post-shuffle list) leaves the final answer `A` — it never becomes `B`. -/
theorem claimC3_counterexample :
    (Evaluator.apply_validation qA valShuffleA [⟨"B", "y"⟩, ⟨"A", "x"⟩]).choices
        = [⟨"B", "y"⟩, ⟨"A", "x"⟩]
    ∧ (Evaluator.apply_validation qA valShuffleA [⟨"B", "y"⟩, ⟨"A", "x"⟩]).correct_ids
        = ["A"]
    ∧ (Evaluator.apply_validation qA valShuffleA [⟨"A", "x"⟩, ⟨"B", "y"⟩]).correct_ids
        = ["A"]
    ∧ (["A"] : List String) ≠ ["B"] := by decide

/-- Claim C3 (amended): the shuffle reorders intact id-text pairs and
evaluator.py then re-resolves the key by text lookups within the
post-shuffle list, so (for pairwise-distinct texts, with the
final-answer id present) the final key is the id of the very pair that
carried the correct text before the shuffle — the key id does not
change, and the choice it names still holds the pre-shuffle correct
text.  eval_new2.py performs no re-resolution at all. -/
theorem claimC3_amended (mcq : Question) (val : Validation) (s : List Choice) (c₀ : Choice)
    (hperm : s.Perm mcq.choices)
    (hnd : (s.map Choice.text).Nodup)
    (hsh : val.shuffle = true)
    (hfind : s.find? (fun x => x.id = val.final_answer) = some c₀) :
    (Evaluator.apply_validation mcq val s).correct_ids = [c₀.id]
    ∧ c₀.id = val.final_answer
    ∧ c₀ ∈ mcq.choices
    ∧ (Evaluator.apply_validation mcq val s).choices = s
    ∧ (EvalNew2.apply_validation mcq val s).correct_ids
        = (if val.final_answer ≠ mcq.correct_ids.headI then [val.final_answer]
           else mcq.correct_ids) := by
  have hid : c₀.id = val.final_answer := by
    have hp := List.find?_some hfind
    simpa using hp
  have hk := rematchKey_found (Evaluator.keyAfterOverride mcq val)
    val.final_answer s hnd c₀ hfind
  refine ⟨?_, hid, ?_, ?_, rfl⟩
  · simp [Evaluator.apply_validation, Evaluator.finalKey, SHUFFLE_CHOICES, hsh, hk]
  · exact hperm.mem_iff.mp (List.mem_of_find?_eq_some hfind)
  · simp [Evaluator.apply_validation, Evaluator.finalChoices, SHUFFLE_CHOICES, hsh]

theorem claimC3_amended_witness :
    (([⟨"B", "y"⟩, ⟨"A", "x"⟩] : List Choice).Perm qA.choices
      ∧ (([⟨"B", "y"⟩, ⟨"A", "x"⟩] : List Choice).map Choice.text).Nodup
      ∧ valShuffleA.shuffle = true
      ∧ ([⟨"B", "y"⟩, ⟨"A", "x"⟩] : List Choice).find?
          (fun x => x.id = valShuffleA.final_answer) = some ⟨"A", "x"⟩)
    ∧ ((Evaluator.apply_validation qA valShuffleA [⟨"B", "y"⟩, ⟨"A", "x"⟩]).correct_ids
          = [(⟨"A", "x"⟩ : Choice).id]
      ∧ (⟨"A", "x"⟩ : Choice).id = valShuffleA.final_answer
      ∧ (⟨"A", "x"⟩ : Choice) ∈ qA.choices
      ∧ (Evaluator.apply_validation qA valShuffleA [⟨"B", "y"⟩, ⟨"A", "x"⟩]).choices
          = [⟨"B", "y"⟩, ⟨"A", "x"⟩]
      ∧ (EvalNew2.apply_validation qA valShuffleA [⟨"B", "y"⟩, ⟨"A", "x"⟩]).correct_ids
          = (if valShuffleA.final_answer ≠ qA.correct_ids.headI
             then [valShuffleA.final_answer] else qA.correct_ids)) :=
  ⟨⟨by decide, by decide, by decide, by decide⟩,
    claimC3_amended qA valShuffleA [⟨"B", "y"⟩, ⟨"A", "x"⟩] ⟨"A", "x"⟩
      (by decide) (by decide) (by decide) (by decide)⟩

/-- Claim C10 as stated is FALSE when two choices share a text: with
choices `[{A,x},{B,x}]`, key `B`, and a shuffle that leaves the order
unchanged, evaluator.py's re-resolution moves the key to `A` (the first
choice bearing text `x`) even though every id kept its own text and the
key was `B` before the shuffle step. -/
theorem claimC10_counterexample :
    (Evaluator.apply_validation ⟨"p", "s", [⟨"A", "x"⟩, ⟨"B", "x"⟩], ["B"], "easy", none⟩
        ⟨"B", "easy", true, []⟩ [⟨"A", "x"⟩, ⟨"B", "x"⟩]).correct_ids = ["A"]
    ∧ Evaluator.keyAfterOverride
        ⟨"p", "s", [⟨"A", "x"⟩, ⟨"B", "x"⟩], ["B"], "easy", none⟩
        ⟨"B", "easy", true, []⟩ = ["B"]
    ∧ (Evaluator.apply_validation ⟨"p", "s", [⟨"A", "x"⟩, ⟨"B", "x"⟩], ["B"], "easy", none⟩
        ⟨"B", "easy", true, []⟩ [⟨"A", "x"⟩, ⟨"B", "x"⟩]).choices
        = [⟨"A", "x"⟩, ⟨"B", "x"⟩]
    ∧ (["A"] : List String) ≠ ["B"] := by decide

/-- Claim C10 (amended): the shuffle step permutes the choice list with
every id-text pair intact (the post-shuffle list is a permutation of
the original), and the answer key id is unchanged across the shuffle
step provided the choice texts are pairwise distinct and the
final-answer id occurs among the choices (in eval_new2.py the key is
trivially untouched by the shuffle); with duplicate texts, evaluator.py's
re-resolution can move the key (see the counterexample). -/
theorem claimC10_amended (mcq : Question) (val : Validation) (s : List Choice) (c₀ : Choice)
    (hperm : s.Perm mcq.choices)
    (hnd : (s.map Choice.text).Nodup)
    (hsh : val.shuffle = true)
    (hfind : s.find? (fun x => x.id = val.final_answer) = some c₀) :
    (Evaluator.apply_validation mcq val s).correct_ids = [val.final_answer]
    ∧ (Evaluator.keyAfterOverride mcq val).headI = val.final_answer
    ∧ (Evaluator.apply_validation mcq val s).choices.Perm mcq.choices
    ∧ (EvalNew2.apply_validation mcq val s).correct_ids
        = (if val.final_answer ≠ mcq.correct_ids.headI then [val.final_answer]
           else mcq.correct_ids)
    ∧ (EvalNew2.apply_validation mcq val s).choices.Perm mcq.choices := by
  have hid : c₀.id = val.final_answer := by
    have hp := List.find?_some hfind
    simpa using hp
  have hk := rematchKey_found (Evaluator.keyAfterOverride mcq val)
    val.final_answer s hnd c₀ hfind
  refine ⟨?_, ?_, ?_, rfl, ?_⟩
  · simp [Evaluator.apply_validation, Evaluator.finalKey, SHUFFLE_CHOICES, hsh, hk, hid]
  · unfold Evaluator.keyAfterOverride
    by_cases he : val.final_answer = mcq.correct_ids.headI <;> simp [he]
  · have hc : (Evaluator.apply_validation mcq val s).choices = s := by
      simp [Evaluator.apply_validation, Evaluator.finalChoices, SHUFFLE_CHOICES, hsh]
    rw [hc]; exact hperm
  · have hc : (EvalNew2.apply_validation mcq val s).choices = s := by
      simp [EvalNew2.apply_validation, SHUFFLE_CHOICES, hsh]
    rw [hc]; exact hperm

theorem claimC10_amended_witness :
    ((qA.choices : List Choice).Perm qA.choices
      ∧ ((qA.choices : List Choice).map Choice.text).Nodup
      ∧ valShuffleA.shuffle = true
      ∧ (qA.choices : List Choice).find?
          (fun x => x.id = valShuffleA.final_answer) = some ⟨"A", "x"⟩)
    ∧ ((Evaluator.apply_validation qA valShuffleA qA.choices).correct_ids
          = [valShuffleA.final_answer]
      ∧ (Evaluator.keyAfterOverride qA valShuffleA).headI = valShuffleA.final_answer
      ∧ (Evaluator.apply_validation qA valShuffleA qA.choices).choices.Perm qA.choices
      ∧ (EvalNew2.apply_validation qA valShuffleA qA.choices).correct_ids
          = (if valShuffleA.final_answer ≠ qA.correct_ids.headI
             then [valShuffleA.final_answer] else qA.correct_ids)
      ∧ (EvalNew2.apply_validation qA valShuffleA qA.choices).choices.Perm qA.choices) :=
  ⟨⟨by decide, by decide, by decide, by decide⟩,
    claimC10_amended qA valShuffleA qA.choices ⟨"A", "x"⟩
      (by decide) (by decide) (by decide) (by decide)⟩

/-- Sample question stamped with a validation audit (final answer `A`),
as it stands when evaluator.py's `evaluate_question` receives it. -/
def qAValidated : Question :=
  { qA with validation := some ⟨Evaluator.MASTER_MODEL, "A", "A", "easy", "easy", false, []⟩ }

/-- Claim C4 (confirmed): an errored student call never aborts the
question — in both scripts it is recorded as a student evaluation with
`correct = false` and the error text as its rationale, one result per
roster call survives, and the block accuracy is the number of correct
results over the FULL call count (errored calls included in the
denominator); likewise the latency average divides by the full count.
With the 3-call roster `callsOneOfThree` (one errors, one right, one
wrong) the accuracy fraction is 1/3 — see the witness. -/
theorem claimC4_errored_call (mcqE mcqN : Question) (calls : List (String × CallResult))
    (mr : String × CallResult) (hmem : mr ∈ calls) (herr : mr.2.error = true) :
    (Evaluator.evaluate_question mcqE calls).student_evaluations.length = calls.length
    ∧ (EvalNew2.evaluate_question mcqN calls).student_evaluations.length = calls.length
    ∧ ({ model := mr.1, answer := none, reasoning := mr.2.content, correct := false,
          time_ms := mr.2.time_ms } : StudentResult)
        ∈ (Evaluator.evaluate_question mcqE calls).student_evaluations
    ∧ ({ model := mr.1, answer := none, reasoning := mr.2.content, correct := false,
          time_ms := 0 } : StudentResult)
        ∈ (EvalNew2.evaluate_question mcqN calls).student_evaluations
    ∧ (Evaluator.evaluate_question mcqE calls).accuracy
        = round3 ((((Evaluator.evaluate_question mcqE calls).student_evaluations.countP
              (fun r => r.correct)) : ℚ) / ((calls.length : ℚ)))
    ∧ (EvalNew2.evaluate_question mcqN calls).accuracy
        = (((EvalNew2.evaluate_question mcqN calls).student_evaluations.countP
              (fun r => r.correct)) : ℚ) / ((calls.length : ℚ))
    ∧ (Evaluator.evaluate_question mcqE calls).avg_time_ms
        = intTrunc ((((Evaluator.evaluate_question mcqE calls).student_evaluations.map
              (fun r => (r.time_ms : ℚ))).sum) / ((calls.length : ℚ))) := by
  have hlenE : (Evaluator.evaluate_question mcqE calls).student_evaluations.length
      = calls.length := by
    simp [Evaluator.evaluate_question]
  have hlenN : (EvalNew2.evaluate_question mcqN calls).student_evaluations.length
      = calls.length := by
    simp [EvalNew2.evaluate_question]
  refine ⟨hlenE, hlenN, ?_, ?_, ?_, ?_, ?_⟩
  · simp only [Evaluator.evaluate_question]
    refine List.mem_map.mpr ⟨mr, hmem, ?_⟩
    simp [Evaluator.processCall, herr]
  · simp only [EvalNew2.evaluate_question]
    refine List.mem_map.mpr ⟨mr, hmem, ?_⟩
    simp [EvalNew2.processResult, herr]
  · rw [evaluatorBlockAccuracy, hlenE]
  · rw [new2BlockAccuracy, hlenN]
  · simp [Evaluator.evaluate_question, avgTimeFraction_eq]

theorem claimC4_witness :
    (("m3", (⟨true, "boom", 5⟩ : CallResult)) ∈ callsOneOfThree
      ∧ (⟨true, "boom", 5⟩ : CallResult).error = true)
    ∧ (Evaluator.evaluate_question qAValidated callsOneOfThree).student_evaluations.length
        = callsOneOfThree.length
    ∧ ({ model := "m3", answer := none, reasoning := "boom", correct := false,
          time_ms := 0 } : StudentResult)
        ∈ (EvalNew2.evaluate_question qA callsOneOfThree).student_evaluations
    ∧ (EvalNew2.evaluate_question qA callsOneOfThree).accuracy = 1 / 3 :=
  ⟨⟨by decide, by decide⟩,
    (claimC4_errored_call qAValidated qA callsOneOfThree ("m3", ⟨true, "boom", 5⟩)
        (by decide) (by decide)).1,
    (claimC4_errored_call qAValidated qA callsOneOfThree ("m3", ⟨true, "boom", 5⟩)
        (by decide) (by decide)).2.2.2.1,
    by rfl⟩

/-- Claim C7 as stated is FALSE for eval_new2.py: its `_process_result`
has no fallback scan — for the marker-free response `"I pick B."` it
records a null answer scored incorrect, although the claimed fallback
(present only in evaluator.py's `extract_answer`) finds the isolated
letter `B` within the first 120 characters. -/
theorem claimC7_counterexample :
    EvalNew2.processResult "m" "B" { error := false, content := "I pick B.", time_ms := 10 }
        = { model := "m", answer := none, reasoning := "I pick B.", correct := false,
            time_ms := 10 }
    ∧ fallbackScan "I pick B." = some "B"
    ∧ Evaluator.extract_answer "I pick B." = some "B" := by decide

/-- Claim C7 (amended): evaluator.py's extraction follows the claimed
procedure — case-insensitive `ANSWER:` marker, then the
first-120-character isolated-letter fallback, then null; eval_new2.py
uses only the marker step, so whenever the marker is absent its answer
is null and the result scored incorrect, even when the fallback would
have found a letter. -/
theorem claimC7_amended (text ground model : String) (t : Nat) (a : String)
    (h1 : findMarkerAnswer text = none)
    (h2 : fallbackScan text = some a) :
    Evaluator.extract_answer text = some a
    ∧ (EvalNew2.processResult model ground
        { error := false, content := text, time_ms := t }).answer = none
    ∧ (EvalNew2.processResult model ground
        { error := false, content := text, time_ms := t }).correct = false := by
  refine ⟨?_, ?_, ?_⟩
  · simp only [Evaluator.extract_answer, h1]
    exact h2
  · simp [EvalNew2.processResult, h1]
  · simp [EvalNew2.processResult, h1]

theorem claimC7_amended_witness :
    (findMarkerAnswer "I pick B." = none ∧ fallbackScan "I pick B." = some "B")
    ∧ (Evaluator.extract_answer "I pick B." = some "B"
      ∧ (EvalNew2.processResult "m" "B"
          { error := false, content := "I pick B.", time_ms := 10 }).answer = none
      ∧ (EvalNew2.processResult "m" "B"
          { error := false, content := "I pick B.", time_ms := 10 }).correct = false) :=
  ⟨⟨by decide, by decide⟩,
    claimC7_amended "I pick B." "B" "m" 10 "B" (by decide) (by decide)⟩

/-- Environment for a one-batch run whose single question is validated
by `valNoShuffle` and answered by the three-call roster. -/
def envOneBatch : Nat → Evaluator.BatchEnv :=
  fun _ => ⟨false, [valNoShuffle], fun _ => qenvThree⟩

/-- The same one-correction environment for eval_new2.py. -/
def envNew2OneVal : Nat → EvalNew2.BatchEnv :=
  fun _ => ⟨[valNoShuffle], fun _ => qenvThree⟩

/-- Environment in which every master-model validation call errors. -/
def envAllFail : Nat → Evaluator.BatchEnv := fun _ => ⟨true, [], fun _ => qenvNone⟩

/-- Environment in which every Gemini validation yields an empty array. -/
def envAllEmpty : Nat → EvalNew2.BatchEnv := fun _ => ⟨[], fun _ => qenvNone⟩

/-- Claim C2 as stated is FALSE because of rounding: for a
single-question run whose block has exactly one of three students
correct, the persisted `overall_accuracy` is `0.333` (`round(x, 3)` is
applied both to the stored block accuracy and to the summary), while
the unweighted mean of the blocks' exact correct-fractions is `1/3`. -/
theorem claimC2_counterexample :
    (Evaluator.run_test "r" "test" "random" [qA] envOneBatch).overall_accuracy
      = 333 / 1000
    ∧ (((Evaluator.run_test "r" "test" "random" [qA] envOneBatch).questions.map
          (fun b => ((b.student_evaluations.countP (fun r => r.correct) : ℚ))
              / ((b.student_evaluations.length : ℚ)))).sum)
        / (((Evaluator.run_test "r" "test" "random" [qA] envOneBatch).questions.length : ℚ))
      = 1 / 3
    ∧ (333 / 1000 : ℚ) ≠ 1 / 3 := by
  refine ⟨?_, ?_, by norm_num⟩
  · have e1 : round3 (1 / 3 : ℚ) = 333 / 1000 := by norm_num [round3, round_eq]
    have h1 : (Evaluator.run_test "r" "test" "random" [qA] envOneBatch).overall_accuracy
        = round3 ((round3 (1 / 3) + 0) / 1) := by rfl
    rw [h1, e1]
    norm_num [round3, round_eq]
  · have hqq : (Evaluator.run_test "r" "test" "random" [qA] envOneBatch).questions
        = [Evaluator.evaluate_question (Evaluator.apply_validation qA valNoShuffle qA.choices)
            callsOneOfThree] := by rfl
    rw [hqq]
    simp only [List.map_cons, List.map_nil, List.sum_cons, List.sum_nil, add_zero,
      List.length_singleton, Nat.cast_one, div_one]
    rfl

/-- Claim C2 (amended): the persisted `overall_accuracy` is the
unweighted arithmetic mean of the blocks' stored per-question accuracy
values, rounded to 3 decimal places (not a pooled proportion over all
student answers); each block's stored accuracy is the fraction of
roster calls whose extracted answer equals the corrected key — rounded
to 3 decimals in evaluator.py, exact in eval_new2.py. -/
theorem claimC2_amended (runId mode sampler : String) (selected : List Question)
    (env : Nat → Evaluator.BatchEnv)
    (runId2 mode2 sampler2 : String) (selected2 : List Question)
    (env2 : Nat → EvalNew2.BatchEnv)
    (h : (Evaluator.run_test runId mode sampler selected env).questions ≠ [])
    (h2 : (EvalNew2.run_test runId2 mode2 sampler2 selected2 env2).questions ≠ []) :
    (Evaluator.run_test runId mode sampler selected env).overall_accuracy
      = round3 ((((Evaluator.run_test runId mode sampler selected env).questions.map
            Block.accuracy).sum)
          / (((Evaluator.run_test runId mode sampler selected env).questions.length : ℚ)))
    ∧ (∀ b ∈ (Evaluator.run_test runId mode sampler selected env).questions,
        b.accuracy = round3 (((b.student_evaluations.countP (fun r => r.correct)) : ℚ)
          / ((b.student_evaluations.length : ℚ))))
    ∧ (EvalNew2.run_test runId2 mode2 sampler2 selected2 env2).overall_accuracy
      = round3 ((((EvalNew2.run_test runId2 mode2 sampler2 selected2 env2).questions.map
            Block.accuracy).sum)
          / (((EvalNew2.run_test runId2 mode2 sampler2 selected2 env2).questions.length : ℚ)))
    ∧ (∀ b ∈ (EvalNew2.run_test runId2 mode2 sampler2 selected2 env2).questions,
        b.accuracy = ((b.student_evaluations.countP (fun r => r.correct)) : ℚ)
          / ((b.student_evaluations.length : ℚ))) := by
  by_cases hq : Evaluator.runTestBlocks selected env = []
  · simp [Evaluator.run_test, hq] at h
  · by_cases hq2 : EvalNew2.runTestBlocks selected2 env2 = []
    · simp [EvalNew2.run_test, hq2] at h2
    · refine ⟨?_, ?_, ?_, ?_⟩
      · simp [Evaluator.run_test, hq]
      · intro b hb
        simp [Evaluator.run_test, hq] at hb
        obtain ⟨mcq, calls, rfl⟩ := memRunTestBlocksEvaluator hb
        exact evaluatorBlockAccuracy mcq calls
      · simp [EvalNew2.run_test, hq2]
      · intro b hb
        simp [EvalNew2.run_test] at hb
        obtain ⟨mcq, calls, rfl⟩ := memRunTestBlocksNew2 hb
        exact new2BlockAccuracy mcq calls

theorem claimC2_amended_witness :
    ((Evaluator.run_test "r" "test" "random" [qA] envOneBatch).questions ≠ []
      ∧ (EvalNew2.run_test "r2" "db" "random" [qA, qB] envNew2OneVal).questions ≠ [])
    ∧ ((Evaluator.run_test "r" "test" "random" [qA] envOneBatch).overall_accuracy
        = round3 ((((Evaluator.run_test "r" "test" "random" [qA] envOneBatch).questions.map
              Block.accuracy).sum)
            / (((Evaluator.run_test "r" "test" "random" [qA] envOneBatch).questions.length : ℚ)))
      ∧ (∀ b ∈ (Evaluator.run_test "r" "test" "random" [qA] envOneBatch).questions,
          b.accuracy = round3 (((b.student_evaluations.countP (fun r => r.correct)) : ℚ)
            / ((b.student_evaluations.length : ℚ))))
      ∧ (EvalNew2.run_test "r2" "db" "random" [qA, qB] envNew2OneVal).overall_accuracy
        = round3 ((((EvalNew2.run_test "r2" "db" "random" [qA, qB] envNew2OneVal).questions.map
              Block.accuracy).sum)
            / (((EvalNew2.run_test "r2" "db" "random" [qA, qB]
                envNew2OneVal).questions.length : ℚ)))
      ∧ (∀ b ∈ (EvalNew2.run_test "r2" "db" "random" [qA, qB] envNew2OneVal).questions,
          b.accuracy = ((b.student_evaluations.countP (fun r => r.correct)) : ℚ)
            / ((b.student_evaluations.length : ℚ)))) :=
  ⟨⟨by decide, by decide⟩,
    claimC2_amended "r" "test" "random" [qA] envOneBatch
      "r2" "db" "random" [qA, qB] envNew2OneVal (by decide) (by decide)⟩

/-- Claim C8 (confirmed): a run in which zero batches validate —
every master-model call errors in evaluator.py, every Gemini validation
returns an empty array in eval_new2.py — still produces a well-formed
run record carrying the run identifier and metadata, an empty question
list and zero summary statistics, rather than raising. -/
theorem claimC8_empty_run (runId mode sampler : String) (selected : List Question)
    (env : Nat → Evaluator.BatchEnv)
    (runId2 mode2 sampler2 : String) (selected2 : List Question)
    (env2 : Nat → EvalNew2.BatchEnv)
    (h : ∀ i, (env i).valError = true)
    (h2 : ∀ i, (env2 i).vals = []) :
    Evaluator.run_test runId mode sampler selected env
      = { test_run_id := runId, mode := mode, sampler := sampler,
          batch_size := selected.length, validation_model := Evaluator.MASTER_MODEL,
          student_models := Evaluator.STUDENT_MODELS, shuffle_enabled := SHUFFLE_CHOICES,
          questions := [], overall_accuracy := 0, avg_question_time_ms := 0,
          errorNote := some "All validation batches failed",
          schema_version := "eval-run-1.0" }
    ∧ EvalNew2.run_test runId2 mode2 sampler2 selected2 env2
      = { test_run_id := runId2, mode := mode2, sampler := sampler2,
          batch_size := selected2.length, validation_model := EvalNew2.VALIDATOR_NAME,
          student_models := EvalNew2.OPENROUTER_MODELS ++ EvalNew2.HF_MODELS,
          shuffle_enabled := SHUFFLE_CHOICES,
          questions := [], overall_accuracy := 0, avg_question_time_ms := 0,
          errorNote := none, schema_version := "eval-run-1.0" } := by
  have hb := evaluatorBlocksNil selected env h
  have hb2 := new2BlocksNil selected2 env2 h2
  constructor
  · simp [Evaluator.run_test, hb]
  · simp [EvalNew2.run_test, hb2, round3, intTrunc]

theorem claimC8_witness :
    (∀ i, (envAllFail i).valError = true)
    ∧ (∀ i, (envAllEmpty i).vals = [])
    ∧ (Evaluator.run_test "run_empty" "test" "random" [qA] envAllFail
        = { test_run_id := "run_empty", mode := "test", sampler := "random",
            batch_size := 1, validation_model := Evaluator.MASTER_MODEL,
            student_models := Evaluator.STUDENT_MODELS, shuffle_enabled := SHUFFLE_CHOICES,
            questions := [], overall_accuracy := 0, avg_question_time_ms := 0,
            errorNote := some "All validation batches failed",
            schema_version := "eval-run-1.0" }
      ∧ EvalNew2.run_test "run_hybrid_empty" "db" "random" [qA] envAllEmpty
        = { test_run_id := "run_hybrid_empty", mode := "db", sampler := "random",
            batch_size := 1, validation_model := EvalNew2.VALIDATOR_NAME,
            student_models := EvalNew2.OPENROUTER_MODELS ++ EvalNew2.HF_MODELS,
            shuffle_enabled := SHUFFLE_CHOICES,
            questions := [], overall_accuracy := 0, avg_question_time_ms := 0,
            errorNote := none, schema_version := "eval-run-1.0" }) :=
  ⟨fun i => rfl, fun i => rfl,
    claimC8_empty_run "run_empty" "test" "random" [qA] envAllFail
      "run_hybrid_empty" "db" "random" [qA] envAllEmpty
      (fun i => rfl) (fun i => rfl)⟩
